import Mathlib

/-!
Verification of the dockershit interactive image-builder core.

The development shallowly embeds the Python sources:
  - `src/dockershit/docker_file.py` (class `Dockerfile`): the persisted
    instruction log, its append/rollback/load/write operations;
  - `src/dockershit/docker.py` (class `Docker`): the executor that
    classifies one input line and mutates the log, and the builder.

Pure string helpers mirror the Python built-ins they replace
(`str.split`, `str.splitlines`, `str.strip`, substring tests); they are
written as structural recursion over character lists so that every
statement below can be evaluated by the kernel on concrete inputs.
External processes (the container build and the container run) are
modelled by their observable interface: exit codes and captured output
supplied as parameters, with invocation counts recorded in the result.

The `command` helper module and the `Dockerfile.cd` method are referenced
by `docker.py` and its tests but their source file is not part of the
sources; those definitions are modelled from the specification and are
marked as such in their doc comments.
-/

namespace Dockershit

/-! ### Python string built-ins -/

/-- Python `str.lstrip()`: drop leading whitespace. -/
def pyLstrip (s : String) : String :=
  String.mk (s.toList.dropWhile Char.isWhitespace)

/-- Python `str.strip()`: drop leading and trailing whitespace. -/
def pyStrip (s : String) : String :=
  String.mk
    (((s.toList.dropWhile Char.isWhitespace).reverse.dropWhile
      Char.isWhitespace).reverse)

/-- Python `s.startswith(p)`. -/
def pyStartsWith (s p : String) : Bool :=
  p.toList.isPrefixOf s.toList

/-- Python `s.endswith(p)`. -/
def pyEndsWith (s p : String) : Bool :=
  p.toList.reverse.isPrefixOf s.toList.reverse

/-- Python `s.upper()` (ASCII case mapping). -/
def pyUpper (s : String) : String :=
  String.mk (s.toList.map Char.toUpper)

/-- Python `s[n:]` for a non-negative index. -/
def pyDrop (s : String) (n : Nat) : String :=
  String.mk (s.toList.drop n)

/-- Worker for `pySplit`: accumulate the current word (reversed) while
scanning. -/
def pySplitGo (cur : List Char) : List Char → List (List Char)
  | [] => if cur = [] then [] else [cur.reverse]
  | c :: rest =>
    if c.isWhitespace then
      if cur = [] then pySplitGo [] rest
      else cur.reverse :: pySplitGo [] rest
    else pySplitGo (c :: cur) rest

/-- Python `str.split()` with no separator: split on runs of whitespace,
ignoring leading and trailing whitespace. -/
def pySplit (s : String) : List String :=
  (pySplitGo [] s.toList).map String.mk

/-- Python `s.split(maxsplit=1)` with no separator: at most one split, on
the first run of whitespace after the first token. -/
def pySplitMax1 (s : String) : List String :=
  let cs := s.toList.dropWhile Char.isWhitespace
  let tok := cs.takeWhile (fun c => !c.isWhitespace)
  let rest := (cs.dropWhile (fun c => !c.isWhitespace)).dropWhile
    Char.isWhitespace
  if tok.isEmpty then []
  else if rest.isEmpty then [String.mk tok]
  else [String.mk tok, String.mk rest]

/-- Worker for `pySplitlines`: split a character list at newlines. -/
def splitNlGo (cur : List Char) : List Char → List (List Char)
  | [] => [cur.reverse]
  | c :: rest =>
    if c = '\n' then cur.reverse :: splitNlGo [] rest
    else splitNlGo (c :: cur) rest

/-- Python `str.splitlines()` for strings whose only line separator is
a newline character: a trailing newline does not produce a final empty
element, and the empty string has no lines. -/
def pySplitlines (s : String) : List String :=
  let parts := splitNlGo [] s.toList
  (if parts.getLast? = some [] then parts.dropLast else parts).map String.mk

/-- Worker for `pyContains`: does `sub` occur at any position? -/
def containsGo (sub : List Char) : List Char → Bool
  | [] => sub.isPrefixOf []
  | c :: rest => sub.isPrefixOf (c :: rest) || containsGo sub rest

/-- Python `sub in s`: substring containment test. -/
def pyContains (s sub : String) : Bool :=
  containsGo sub.toList s.toList

/-- Worker for `afterFirst`: the characters after the first occurrence
of `sep`, or `none` when `sep` does not occur. -/
def afterFirstGo (sep : List Char) : List Char → Option (List Char)
  | [] => if sep = [] then some [] else none
  | c :: rest =>
    if sep.isPrefixOf (c :: rest) then some ((c :: rest).drop sep.length)
    else afterFirstGo sep rest

/-- Python `s.split(sep, 1)[1]`: the part of `s` after the first
occurrence of the separator (empty when the separator is absent, where
the Python indexing would raise instead). -/
def afterFirst (s sep : String) : String :=
  match afterFirstGo sep.toList s.toList with
  | some r => String.mk r
  | none => ""

/-! ### Classifier predicates (`command` module and `Dockerfile` statics) -/

/-- Modelled from the spec: the `command` module is referenced by
`docker.py` but its source file is missing.  `isHidden(line)` is true iff
the line begins with a leading space character, the hidden-line marker. -/
def is_hidden (line : String) : Bool :=
  pyStartsWith line " "

/-- Modelled from the spec: the `command` module is referenced by
`docker.py` but its source file is missing.  `flatten(line)` collapses
the line to the form used for matching, stripping the leading
hidden-marker whitespace. -/
def flatten (line : String) : String :=
  pyLstrip line

/-- `Dockerfile.COMMANDS`: the fixed, case-sensitive set of native
build-directive keywords. -/
def COMMANDS : List String :=
  ["ADD", "COPY", "ENV", "EXPOSE", "LABEL", "USER", "VOLUME", "WORKDIR",
   "CMD", "ENTRYPOINT"]

/-- Modelled from the spec: the `command` module is referenced by
`docker.py` but its source file is missing.  `isNativeDirective(line)` is
true iff, after stripping leading whitespace, the first
whitespace-delimited token exactly matches one of the native
build-directive keywords (matching `Dockerfile.is_command` in the
sources, which the module-level tests mirror). -/
def is_dockerfile (line : String) : Bool :=
  match pySplit (pyStrip line) with
  | [] => false
  | t :: _ => COMMANDS.contains t

/-- `Dockerfile.matters`: a line matters iff after trimming it is
non-empty and does not start with a comment marker. -/
def matters (line : String) : Bool :=
  let is_empty := pyStrip line = ""
  let is_comment := pyStartsWith (pyStrip line) "#"
  !is_empty && !is_comment

/-- `Docker.is_multi_command`: true iff the line contains any of the
shell operator tokens. -/
def is_multi_command (cmd : String) : Bool :=
  ["&&", "||", ";", "|", ">", "<"].any (fun tok => pyContains cmd tok)

/-! ### The instruction log (`Dockerfile`) -/

/-- State of a `Dockerfile` object together with the content of its
persisted storage file (`none` models a path that does not exist). -/
structure DockerfileState where
  lines : List String
  image : Option String
  workdir : String
  file : Option String
deriving Repr, DecidableEq

/-- Characters of the lines joined by newlines (worker for
`writeContent`). -/
def joinNl : List String → List Char
  | [] => []
  | [l] => l.toList
  | l :: ls => l.toList ++ '\n' :: joinNl ls

/-- The text `Dockerfile.write` persists: lines joined by newlines with a
trailing newline. -/
def writeContent (lines : List String) : String :=
  String.mk (joinNl lines ++ ['\n'])

/-- `Dockerfile.write`: persist the in-memory lines to storage. -/
def write (df : DockerfileState) : DockerfileState :=
  { df with file := some (writeContent df.lines) }

/-- `Dockerfile.append`: append one line, then persist. -/
def append (df : DockerfileState) (line : String) : DockerfileState :=
  write { df with lines := df.lines ++ [line] }

/-- `Dockerfile.set_pwd`: record the new working directory and append the
corresponding WORKDIR directive (which persists). -/
def set_pwd (df : DockerfileState) (pwd : String) : DockerfileState :=
  append { df with workdir := pwd } ("WORKDIR " ++ pwd)

/-- Resolution of a directory-change argument against the current
working directory: an absolute path is taken verbatim, a relative one is
concatenated onto the working directory with a separating slash added
when missing. -/
def resolveCd (workdir path : String) : String :=
  if pyStartsWith path "/" then path
  else (if pyEndsWith workdir "/" then workdir else workdir ++ "/") ++ path

/-- Modelled from the spec: `Dockerfile.cd` is called by `docker.py` and
exercised by the tests but is missing from the sources.  Per the spec's
directory-change step: resolve a relative argument against the current
working directory, then update `workdir` and append a WORKDIR directive
via the dedicated set-working-directory operation. -/
def cd (df : DockerfileState) (path : String) : DockerfileState :=
  set_pwd df (resolveCd df.workdir path)

/-- Helper for `Dockerfile.set_image`: rewrite the first line that
starts (case-insensitively) with the FROM keyword; `none` when there is
no such line. -/
def replaceFirstFrom (image : String) : List String → Option (List String)
  | [] => none
  | l :: ls =>
    if pyStartsWith (pyUpper l) "FROM " then
      some (("FROM " ++ image) :: ls)
    else (replaceFirstFrom image ls).map (l :: ·)

/-- `Dockerfile.set_image`: record the image and rewrite the FROM line in
place, or insert one at position 0.  Note: the source method returns
without calling `write`, so the `file` component is left untouched. -/
def set_image (df : DockerfileState) (image : String) : DockerfileState :=
  let lines2 :=
    match replaceFirstFrom image df.lines with
    | some ls => ls
    | none => ("FROM " ++ image) :: df.lines
  { df with image := some image, lines := lines2 }

/-- The lines that do not matter at the tail of the log, removed by the
rollback loop. -/
def dropTrailingNoise (ls : List String) : List String :=
  (ls.reverse.dropWhile (fun l => !matters l)).reverse

/-- `Dockerfile.remove_last_command`: pop trailing lines while they do
not matter, pop one more line, then persist.  (The source raises when the
final pop hits an empty list; every use below keeps at least one
mattering line in the log, where this model agrees with the source.) -/
def remove_last_command (df : DockerfileState) : DockerfileState :=
  write { df with lines := (dropTrailingNoise df.lines).dropLast }

/-- The continuation-joining loop of `Dockerfile.load`, carrying the
accumulated `self.lines` and the `current` logical line. -/
def loadJoinAux (acc : List String) (current : String) :
    List String → (List String × String)
  | [] => (acc, current)
  | l :: ls =>
    if pyEndsWith current "\\" then
      loadJoinAux acc (current ++ "\n" ++ l) ls
    else loadJoinAux (acc ++ [l]) l ls

/-- The line list `Dockerfile.load` builds from the raw physical lines of
the file: the loop body appends each line that does not continue the
previous one, and after the loop the joined `current` is appended when it
differs from the final raw line. -/
def loadLines (raw : List String) : List String :=
  match raw.getLast? with
  | none => []
  | some lastRaw =>
    let r := loadJoinAux [] "" raw
    if r.2 ≠ lastRaw then r.1 ++ [r.2] else r.1

/-- The image/workdir extraction of `Dockerfile.load`: split every line
containing a space, collect FROM and WORKDIR arguments, keep the first
FROM and the last WORKDIR (defaults preserved when absent). -/
def loadMeta (lines : List String) (image : Option String) (workdir : String) :
    Option String × String :=
  let cmds := (lines.filter (fun l => l.toList.contains ' ')).map pySplitMax1
  let froms := cmds.filterMap (fun c =>
    match c with
    | t :: rest => if pyUpper t = "FROM" then some (rest.headD "") else none
    | [] => none)
  let chdirs := cmds.filterMap (fun c =>
    match c with
    | t :: rest => if pyUpper t = "WORKDIR" then some (rest.headD "") else none
    | [] => none)
  (match froms.head? with
   | some f => some f
   | none => image,
   match chdirs.getLast? with
   | some c => c
   | none => workdir)

/-- `Dockerfile.load`: when the file exists, rebuild `lines` from its
physical lines (joining backslash continuations), then mirror `image`
and `workdir` from the resulting lines. -/
def load (df : DockerfileState) : DockerfileState :=
  let ls :=
    match df.file with
    | some content => loadLines (pySplitlines content)
    | none => df.lines
  let meta := loadMeta ls df.image df.workdir
  { df with lines := ls, image := meta.1, workdir := meta.2 }

/-! ### The builder and executor (`Docker`) -/

/-- Observable result of the external `docker build` child process. -/
structure BuildEnv where
  exitCode : Int
  stdout : String
  stderr : String
deriving Repr, DecidableEq

/-- Result of `Docker.build`: the returned flag, the dockerfile state
after a possible rollback, what was written to the error and output
streams, and how many rollbacks ran. -/
structure BuildOutcome where
  ok : Bool
  df : DockerfileState
  stderrOut : String
  stdoutOut : String
  rollbacks : Nat
deriving Repr, DecidableEq

/-- `Docker.build`: run the external image build; on a non-zero exit
code write the captured error output to the error stream (unless debug
mode streamed it live), roll the log back once, and return failure; on a
zero exit code echo captured standard output in debug mode and return
success. -/
def build (debug : Bool) (df : DockerfileState) (benv : BuildEnv) :
    BuildOutcome :=
  if benv.exitCode ≠ 0 then
    { ok := false
      df := remove_last_command df
      stderrOut := if !debug then benv.stderr else ""
      stdoutOut := ""
      rollbacks := 1 }
  else
    { ok := true
      df := df
      stderrOut := ""
      stdoutOut := if debug && benv.stdout ≠ "" then benv.stdout else ""
      rollbacks := 0 }

/-- Result of one `Docker.input` call: the dockerfile state afterwards
and how many builder invocations, container runs, and rollbacks
happened. -/
structure InputOutcome where
  df : DockerfileState
  builds : Nat
  runs : Nat
  rollbacks : Nat
deriving Repr, DecidableEq

/-- `Docker.input`: classify one raw input line and act on it.  The exit
code of the (at most one) container run is `runExit`; the observable
behaviour of the (at most one) external build is `benv`. -/
def input (debug : Bool) (df : DockerfileState) (line : String)
    (runExit : Int) (benv : BuildEnv) : InputOutcome :=
  if line = "" then
    { df := df, builds := 0, runs := 0, rollbacks := 0 }
  else
    let hid := is_hidden line
    let cmd := pyLstrip line
    let flat_cmd := flatten line
    if pyStartsWith cmd "#" then
      { df := if !hid then append df cmd else df
        builds := 0, runs := 0, rollbacks := 0 }
    else if is_dockerfile cmd then
      if !hid then
        let df1 := append df cmd
        if pyStartsWith cmd "WORKDIR " then
          let path := pyStrip (afterFirst flat_cmd "WORKDIR ")
          { df := cd df1 path, builds := 0, runs := 0, rollbacks := 0 }
        else
          let b := build debug df1 benv
          { df := b.df, builds := 1, runs := 0, rollbacks := b.rollbacks }
      else
        let b := build debug df benv
        { df := b.df, builds := 1, runs := 0, rollbacks := b.rollbacks }
    else if pyStartsWith cmd "cd " && !is_multi_command cmd then
      { df := cd df (pyStrip (pyDrop cmd 3)), builds := 0, runs := 0
        rollbacks := 0 }
    else
      if runExit = 0 then
        if !hid then
          let df1 := append (append df "") ("RUN " ++ cmd)
          let b := build debug df1 benv
          { df := b.df, builds := 1, runs := 1, rollbacks := b.rollbacks }
        else
          { df := df, builds := 0, runs := 1, rollbacks := 0 }
      else
        { df := append df ("# (error) RUN " ++ cmd), builds := 0, runs := 1
          rollbacks := 0 }

/-! ### Shared concrete states for witnesses and counterexamples -/

/-- A freshly initialised log on the default base image. -/
def dfW : DockerfileState :=
  { lines := ["FROM alpine:latest"], image := some "alpine:latest"
    workdir := "/", file := some "FROM alpine:latest\n" }

/-- The same log with working directory `/app`. -/
def dfApp : DockerfileState :=
  { lines := ["FROM alpine:latest"], image := some "alpine:latest"
    workdir := "/app", file := some "FROM alpine:latest\n" }

/-- A successful external build. -/
def benvOk : BuildEnv := { exitCode := 0, stdout := "", stderr := "" }

/-- A failing external build with captured error output. -/
def benvFail : BuildEnv := { exitCode := 1, stdout := "", stderr := "boom" }

/-- The log of the rollback scenario named by the spec. -/
def df5 : DockerfileState :=
  { lines := ["FROM x", "RUN a", "", "# c", "", "RUN b"]
    image := some "x", workdir := "/", file := none }

/-- The populated log of the set-image test fixture, as persisted on
disk when `set_image` is called. -/
def df8 : DockerfileState :=
  { lines := ["FROM ubuntu:20.04", "WORKDIR /app", "RUN echo hello"]
    image := some "ubuntu:20.04", workdir := "/app"
    file := some "FROM ubuntu:20.04\nWORKDIR /app\nRUN echo hello" }

/-- A freshly written log whose second logical line embeds a backslash
continuation. -/
def df9 : DockerfileState :=
  write { lines := ["FROM u", "RUN a \\\n    b"], image := some "u"
          workdir := "/", file := none }

/-! ### Helper lemmas -/

/-- `dropWhile` skips a whole prefix on which the predicate holds. -/
theorem dropWhile_append_of_forall {α : Type} (p : α → Bool)
    (xs ys : List α) (h : ∀ x ∈ xs, p x = true) :
    List.dropWhile p (xs ++ ys) = List.dropWhile p ys := by
  induction xs with
  | nil => rfl
  | cons a as ih =>
    rw [List.cons_append, List.dropWhile_cons, if_pos (h a (by simp))]
    exact ih (fun x hx => h x (by simp [hx]))

/-- The rollback loop removes exactly a trailing block of lines that do
not matter, stopping at the last mattering line. -/
theorem dropTrailingNoise_concat (pre : List String) (l : String)
    (noise : List String) (hm : matters l = true)
    (hn : ∀ x ∈ noise, matters x = false) :
    dropTrailingNoise (pre ++ l :: noise) = pre ++ [l] := by
  unfold dropTrailingNoise
  rw [show (pre ++ l :: noise).reverse = noise.reverse ++ l :: pre.reverse by
    simp]
  rw [dropWhile_append_of_forall _ _ _
    (fun x hx => by simp [hn x (by simpa using hx)])]
  rw [List.dropWhile_cons, if_neg (by simp [hm])]
  simp

/-- Neither branch of the builder changes the working directory. -/
theorem build_preserves_workdir (debug : Bool) (df : DockerfileState)
    (benv : BuildEnv) : (build debug df benv).df.workdir = df.workdir := by
  unfold build
  split <;> rfl

/-! ### C1 -/

/-- C1: the claim is false as stated.  For the hidden input
`" WORKDIR /x"` (a hidden WORKDIR-equivalent native directive),
`Docker.input` does not update `workdir` to `/x` and it does invoke the
builder: the workdir update sits inside the not-hidden branch, after the
persistence check, and the hidden path falls through to `build`. -/
theorem C1_hidden_workdir_counterexample :
    ¬ ((input false dfW " WORKDIR /x" 0 benvOk).builds = 0 ∧
       (input false dfW " WORKDIR /x" 0 benvOk).df.workdir = "/x") := by
  decide

/-- C1 (amended): for an input line whose flattened form is a native
directive starting with the WORKDIR keyword: when the line is NOT
hidden, `Docker.input` appends the directive, updates `workdir` to the
argument resolved against the current workdir (the argument itself when
absolute), appends the resulting WORKDIR line via the directory
operation, and never invokes the builder; when the line IS hidden,
nothing is appended, `workdir` is NOT updated, and the builder is
invoked exactly once. -/
theorem C1_workdir_directive (debug : Bool) (df : DockerfileState)
    (line : String) (re : Int) (benv : BuildEnv)
    (hne : line ≠ "")
    (hcom : pyStartsWith (pyLstrip line) "#" = false)
    (hdock : is_dockerfile (pyLstrip line) = true)
    (hwd : pyStartsWith (pyLstrip line) "WORKDIR " = true) :
    (is_hidden line = false →
      (input debug df line re benv).builds = 0 ∧
      (input debug df line re benv).df.workdir =
        resolveCd df.workdir (pyStrip (afterFirst (flatten line) "WORKDIR ")) ∧
      (input debug df line re benv).df.lines =
        df.lines ++ [pyLstrip line,
          "WORKDIR " ++
            resolveCd df.workdir
              (pyStrip (afterFirst (flatten line) "WORKDIR "))]) ∧
    (is_hidden line = true →
      (input debug df line re benv).builds = 1 ∧
      (input debug df line re benv).df.workdir = df.workdir ∧
      (input debug df line re benv).df = (build debug df benv).df) := by
  constructor
  · intro h
    refine ⟨?_, ?_, ?_⟩ <;>
      simp [input, hne, hcom, hdock, hwd, h, cd, set_pwd, append, write]
  · intro h
    refine ⟨?_, ?_, ?_⟩ <;>
      simp [input, hne, hcom, hdock, hwd, h, build_preserves_workdir]

/-- C1 (amended) witness: the non-hidden directive `WORKDIR /custom/path`
on a fresh log sets the workdir and does not build. -/
theorem C1_workdir_directive_witness :
    (input false dfW "WORKDIR /custom/path" 0 benvOk).builds = 0 ∧
    (input false dfW "WORKDIR /custom/path" 0 benvOk).df.workdir =
      "/custom/path" := by
  have h := (C1_workdir_directive false dfW "WORKDIR /custom/path" 0 benvOk
    (by decide) (by decide) (by decide) (by decide)).1 (by decide)
  exact ⟨h.1, h.2.1.trans (by decide)⟩

/-! ### C2 -/

/-- C2: for a non-WORKDIR native directive, `Docker.input` invokes the
builder exactly once whether or not the line is hidden, and when it is
not hidden the line is appended to the log before the build (the builder
receives the appended log). -/
theorem C2_directive_builds_once (debug : Bool) (df : DockerfileState)
    (line : String) (re : Int) (benv : BuildEnv)
    (hne : line ≠ "")
    (hcom : pyStartsWith (pyLstrip line) "#" = false)
    (hdock : is_dockerfile (pyLstrip line) = true)
    (hwd : pyStartsWith (pyLstrip line) "WORKDIR " = false) :
    (input debug df line re benv).builds = 1 ∧
    (is_hidden line = false →
      input debug df line re benv =
        { df := (build debug (append df (pyLstrip line)) benv).df
          builds := 1, runs := 0
          rollbacks := (build debug (append df (pyLstrip line)) benv).rollbacks }) ∧
    (is_hidden line = true →
      input debug df line re benv =
        { df := (build debug df benv).df
          builds := 1, runs := 0
          rollbacks := (build debug df benv).rollbacks }) := by
  cases h : is_hidden line with
  | false =>
    refine ⟨?_, fun _ => ?_, fun hh => by simp [h] at hh⟩ <;>
      simp [input, hne, hcom, hdock, hwd, h]
  | true =>
    refine ⟨?_, fun hh => by simp [h] at hh, fun _ => ?_⟩ <;>
      simp [input, hne, hcom, hdock, hwd, h]

/-- C2 witness: `COPY . /app` triggers exactly one build, and the hidden
variant `" COPY . /app"` does too. -/
theorem C2_directive_builds_once_witness :
    (input false dfW "COPY . /app" 0 benvOk).builds = 1 ∧
    (input false dfW " COPY . /app" 0 benvOk).builds = 1 :=
  ⟨(C2_directive_builds_once false dfW "COPY . /app" 0 benvOk (by decide)
      (by decide) (by decide) (by decide)).1,
   (C2_directive_builds_once false dfW " COPY . /app" 0 benvOk (by decide)
      (by decide) (by decide) (by decide)).1⟩

/-! ### C3 -/

/-- C3: a `cd` line with no shell operator is a pure directory change:
the trimmed argument is resolved against the current workdir (absolute
arguments taken verbatim), `workdir` is updated, one WORKDIR line is
appended via the set-working-directory operation, and neither the
builder nor the container is invoked. -/
theorem C3_cd_simple (debug : Bool) (df : DockerfileState)
    (line : String) (re : Int) (benv : BuildEnv)
    (hne : line ≠ "")
    (hcom : pyStartsWith (pyLstrip line) "#" = false)
    (hdock : is_dockerfile (pyLstrip line) = false)
    (hcd : pyStartsWith (pyLstrip line) "cd " = true)
    (hmulti : is_multi_command (pyLstrip line) = false) :
    input debug df line re benv =
      { df := cd df (pyStrip (pyDrop (pyLstrip line) 3))
        builds := 0, runs := 0, rollbacks := 0 } ∧
    (input debug df line re benv).df.workdir =
      resolveCd df.workdir (pyStrip (pyDrop (pyLstrip line) 3)) ∧
    (input debug df line re benv).df.lines =
      df.lines ++
        ["WORKDIR " ++ resolveCd df.workdir (pyStrip (pyDrop (pyLstrip line) 3))] := by
  refine ⟨?_, ?_, ?_⟩ <;>
    simp [input, hne, hcom, hdock, hcd, hmulti, cd, set_pwd, append, write]

/-- C3 witness: with workdir `/app`, the relative `cd src` yields
`/app/src` and the absolute `cd /x` yields `/x`. -/
theorem C3_cd_simple_witness :
    (input false dfApp "cd src" 0 benvOk).df.workdir = "/app/src" ∧
    (input false dfApp "cd /x" 0 benvOk).df.workdir = "/x" :=
  ⟨((C3_cd_simple false dfApp "cd src" 0 benvOk (by decide) (by decide)
      (by decide) (by decide) (by decide)).2.1).trans (by decide),
   ((C3_cd_simple false dfApp "cd /x" 0 benvOk (by decide) (by decide)
      (by decide) (by decide) (by decide)).2.1).trans (by decide)⟩

/-! ### C4 -/

/-- C4: a non-hidden `cd` line that contains a shell operator is treated
as a shell command: the workdir is left unchanged, the container runs
once, and on a zero exit status (with the subsequent build succeeding) a
blank separator followed by a `RUN` directive for the line is appended
to the log. -/
theorem C4_cd_with_operators (debug : Bool) (df : DockerfileState)
    (line : String) (benv : BuildEnv)
    (hne : line ≠ "")
    (hhid : is_hidden line = false)
    (hcom : pyStartsWith (pyLstrip line) "#" = false)
    (hdock : is_dockerfile (pyLstrip line) = false)
    (hcd : pyStartsWith (pyLstrip line) "cd " = true)
    (hmulti : is_multi_command (pyLstrip line) = true)
    (hbuild : benv.exitCode = 0) :
    (input debug df line 0 benv).runs = 1 ∧
    (input debug df line 0 benv).df.workdir = df.workdir ∧
    (input debug df line 0 benv).df.lines =
      df.lines ++ ["", "RUN " ++ pyLstrip line] := by
  refine ⟨?_, ?_, ?_⟩ <;>
    simp [input, hne, hhid, hcom, hdock, hcd, hmulti, build, hbuild,
      append, write]

/-- C4 witness: `cd /usr/src && ls` with workdir `/app` runs in the
container, leaves the workdir at `/app`, and logs a RUN line. -/
theorem C4_cd_with_operators_witness :
    (input false dfApp "cd /usr/src && ls" 0 benvOk).runs = 1 ∧
    (input false dfApp "cd /usr/src && ls" 0 benvOk).df.workdir = "/app" ∧
    (input false dfApp "cd /usr/src && ls" 0 benvOk).df.lines =
      ["FROM alpine:latest", "", "RUN cd /usr/src && ls"] := by
  have h := C4_cd_with_operators false dfApp "cd /usr/src && ls" benvOk
    (by decide) (by decide) (by decide) (by decide) (by decide) (by decide)
    (by decide)
  exact ⟨h.1, h.2.1.trans (by decide), h.2.2.trans (by decide)⟩

/-! ### C5 -/

/-- C5: the claim is false as stated on its own example.  Rolling back
the log `[FROM x, RUN a, "", "# c", "", RUN b]` pops only `RUN b` — the
trailing while-loop strips nothing because `RUN b` itself matters — so
the blank and comment lines between `RUN a` and `RUN b` survive, and the
result is not `[FROM x, RUN a]`. -/
theorem C5_rollback_counterexample :
    (remove_last_command df5).lines = ["FROM x", "RUN a", "", "# c", ""] ∧
    (remove_last_command df5).lines ≠ ["FROM x", "RUN a"] := by
  decide

/-- C5 (amended): when the log splits as `pre ++ [l] ++ noise` with `l`
a mattering line and `noise` a (possibly empty) trailing block of
non-mattering lines, rollback pops the noise, then pops `l`, and
persists `pre`; lines before `l` — mattering or not — are untouched.
On `[FROM x, RUN a, "", "# c", "", RUN b]` the popped line is `RUN b`
and the result keeps the interior blank and comment lines:
`[FROM x, RUN a, "", "# c", ""]`. -/
theorem C5_rollback_amended (df : DockerfileState) (pre : List String)
    (l : String) (noise : List String)
    (hl : df.lines = pre ++ l :: noise)
    (hm : matters l = true)
    (hn : ∀ x ∈ noise, matters x = false) :
    (remove_last_command df).lines = pre ∧
    (remove_last_command df).file = some (writeContent pre) := by
  have key : (dropTrailingNoise df.lines).dropLast = pre := by
    rw [hl, dropTrailingNoise_concat pre l noise hm hn]
    simp
  constructor <;> simp [remove_last_command, write, key]

/-- C5 (amended) witness: the rollback of the claim's own scenario pops
the trailing noise-free `RUN b` only. -/
theorem C5_rollback_amended_witness :
    (remove_last_command df5).lines = ["FROM x", "RUN a", "", "# c", ""] :=
  (C5_rollback_amended df5 ["FROM x", "RUN a", "", "# c", ""] "RUN b" []
    (by decide) (by decide) (by decide)).1

/-! ### C6 -/

/-- C6: when the external build exits non-zero, `Docker.build` returns
failure, rolls the log back exactly once, and (when not in debug mode,
where output streams live) writes the captured error output to the
error stream; when it exits zero, it returns success, does not roll
back, and leaves the log untouched. -/
theorem C6_build_failure_rollback (debug : Bool) (df : DockerfileState)
    (benv : BuildEnv) :
    (benv.exitCode ≠ 0 →
      (build debug df benv).ok = false ∧
      (build debug df benv).rollbacks = 1 ∧
      (build debug df benv).df = remove_last_command df ∧
      (debug = false → (build debug df benv).stderrOut = benv.stderr)) ∧
    (benv.exitCode = 0 →
      (build debug df benv).ok = true ∧
      (build debug df benv).rollbacks = 0 ∧
      (build debug df benv).df = df) := by
  constructor
  · intro h
    refine ⟨?_, ?_, ?_, fun hdbg => ?_⟩
    · simp [build, h]
    · simp [build, h]
    · simp [build, h]
    · simp [build, h, hdbg]
  · intro h
    refine ⟨?_, ?_, ?_⟩ <;> simp [build, h]

/-- C6 witness: a failing build on a two-line log reports failure, rolls
back the last command, and surfaces the captured stderr. -/
theorem C6_build_failure_rollback_witness :
    (build false dfApp benvFail).ok = false ∧
    (build false dfApp benvFail).rollbacks = 1 ∧
    (build false dfApp benvFail).stderrOut = "boom" := by
  have h := (C6_build_failure_rollback false dfApp benvFail).1 (by decide)
  exact ⟨h.1, h.2.1, (h.2.2.2 rfl).trans (by decide)⟩

/-! ### C7 -/

/-- C7: an input line that falls through to the shell-command path and
whose container run exits non-zero gets exactly one error-comment line
`# (error) RUN <cmd>` appended — with no hidden-flag check — and neither
the builder nor the rollback runs. -/
theorem C7_failed_command_error_comment (debug : Bool)
    (df : DockerfileState) (line : String) (re : Int) (benv : BuildEnv)
    (hne : line ≠ "")
    (hcom : pyStartsWith (pyLstrip line) "#" = false)
    (hdock : is_dockerfile (pyLstrip line) = false)
    (hnotcd : (pyStartsWith (pyLstrip line) "cd " &&
      !is_multi_command (pyLstrip line)) = false)
    (hrun : re ≠ 0) :
    (input debug df line re benv).df.lines =
      df.lines ++ ["# (error) RUN " ++ pyLstrip line] ∧
    (input debug df line re benv).builds = 0 ∧
    (input debug df line re benv).rollbacks = 0 ∧
    (input debug df line re benv).runs = 1 := by
  refine ⟨?_, ?_, ?_, ?_⟩ <;>
    simp [input, hne, hcom, hdock, hnotcd, hrun, append, write]

/-- C7 witness: both the visible and the hidden variant of a failing
command append the same error comment, without builds or rollbacks. -/
theorem C7_failed_command_error_comment_witness :
    (input false dfW "apt-get install nope" 1 benvOk).df.lines =
      ["FROM alpine:latest", "# (error) RUN apt-get install nope"] ∧
    (input false dfW " apt-get install nope" 1 benvOk).df.lines =
      ["FROM alpine:latest", "# (error) RUN apt-get install nope"] ∧
    (input false dfW "apt-get install nope" 1 benvOk).builds = 0 := by
  have h1 := C7_failed_command_error_comment false dfW "apt-get install nope"
    1 benvOk (by decide) (by decide) (by decide) (by decide) (by decide)
  have h2 := C7_failed_command_error_comment false dfW " apt-get install nope"
    1 benvOk (by decide) (by decide) (by decide) (by decide) (by decide)
  exact ⟨h1.1.trans (by decide), h2.1.trans (by decide), h1.2.1⟩

/-! ### C8 -/

/-- C8: the claim is false on the code, and the code contradicts its own
tests (`test_set_image_existing_from` asserts the file is rewritten):
`Dockerfile.set_image` rewrites the in-memory FROM line but returns
without calling `write`, so the persisted file no longer equals the
joined in-memory lines after the mutation. -/
theorem C8_set_image_skips_write :
    (set_image df8 "nginx:latest").lines =
      ["FROM nginx:latest", "WORKDIR /app", "RUN echo hello"] ∧
    (set_image df8 "nginx:latest").file = df8.file ∧
    (set_image df8 "nginx:latest").file ≠
      some (writeContent (set_image df8 "nginx:latest").lines) := by
  decide

/-! ### C9 -/

/-- C9: the claim is false on the code, and the code contradicts its own
tests (`test_multiline_command_parsing` expects 2 lines): writing a log
whose logical line embeds a backslash continuation and reloading it does
not reconstruct the lines — the load loop appends the partial first
physical line of the continuation and then appends the joined line as
well, so the round trip gains a spurious line. -/
theorem C9_load_write_roundtrip_fails :
    (load df9).lines = ["FROM u", "RUN a \\", "RUN a \\\n    b"] ∧
    (load df9).lines ≠ df9.lines := by
  decide

/-! ### C10 -/

/-- C10: the empty input line is a no-op: `Docker.input` returns with
the dockerfile state (lines, image, workdir, and persisted file)
untouched, and neither the container, nor the builder, nor the rollback
runs. -/
theorem C10_empty_input_noop (debug : Bool) (df : DockerfileState)
    (re : Int) (benv : BuildEnv) :
    input debug df "" re benv =
      { df := df, builds := 0, runs := 0, rollbacks := 0 } := rfl

end Dockershit
